import Mathlib

/-!
Verification of the team-coup client view-interpretation engine.

The definitions below are a shallow embedding of the TypeScript sources
`src/team-coup-ui/src/components/GameLayout.tsx`, `src/App.tsx` and
`src/types.ts`.  Pure view-derivation code becomes Lean functions; the
component-local selection state and the poll loop become explicit
state-transition systems.  JavaScript property access on a possibly
`undefined` value is modelled with `Except Unit` (`.error ()` = an
exception escapes the render); a TypeScript function returning `null`
becomes `Option`.
-/

namespace TeamCoup

/-- `types.ts` `GamePhase`. -/
inductive GamePhase
  | lobby
  | action_selection
  | block_window
  | challenge_window
  | swap_choice
  | loss_choice
  | game_over
deriving DecidableEq, Repr

/-- `types.ts` `GameMode`. -/
inductive GameMode
  | normal_team
  | super_team
deriving DecidableEq, Repr

/-- `types.ts` `Team`. -/
inductive Team
  | A
  | B
deriving DecidableEq, Repr

/-- `types.ts` `PublicPlayer`. -/
structure PublicPlayer where
  player_id : String
  name : String
  team : Team
  coins : Nat
  alive : Bool
  num_cards : Nat
  cards : Option (List String)
deriving DecidableEq, Repr

/-- `types.ts` `PublicAction`. -/
structure PublicAction where
  actor_id : String
  action : String
  target_id : Option String
deriving DecidableEq, Repr

/-- `types.ts` `PublicBlock`. -/
structure PublicBlock where
  blocker_id : String
  block_type : String
deriving DecidableEq, Repr

/-- `types.ts` `GameView`.  The `players` record is an association list
from player id to `PublicPlayer`. -/
structure GameView where
  game_id : String
  mode : GameMode
  phase : GamePhase
  you : String
  current_player : Option String
  turn_order : List String
  players : List (String × PublicPlayer)
  winner_team : Option Team
  logs : List String
  pending_action : Option PublicAction
  pending_block : Option PublicBlock
  exchange_pool_size : Nat
  exchange_cards : Option (List String)
  loss_choice_player_id : Option String
  loss_choice_cards : Option (List String)
  deck_size : Nat
  revealed_cards : List String
deriving DecidableEq, Repr

/-- Record lookup `view.players[id]` (JS: `undefined` when absent). -/
def lookupPlayer (v : GameView) (id : String) : Option PublicPlayer :=
  v.players.lookup id

/-- JavaScript truthiness of a nullable string: `null` and `""` are falsy. -/
def truthyStr : Option String → Bool
  | none => false
  | some s => !s.isEmpty

/-- `GameLayout.tsx` seat rotation (lines 55-61): rotate `turn_order`
left so the viewer sits first; if the viewer is absent (`indexOf`
returned `-1`) the canonical order is returned unchanged. -/
def rotatedIds {α : Type} [DecidableEq α] (order : List α) (youId : α) : List α :=
  if youId ∈ order then
    order.drop (order.indexOf youId) ++ order.take (order.indexOf youId)
  else order

/-- `GameLayout.tsx` `humanAction` (lines 1100-1129). -/
def humanAction (action : String) : String :=
  if action == "income" then "income"
  else if action == "foreign_aid" then "Foreign Aid"
  else if action == "tax" then "Duke"
  else if action == "super_tax" then "Super Duke"
  else if action == "steal" then "Captain"
  else if action == "super_steal" then "Super Captain"
  else if action == "exchange" then "Ambassador"
  else if action == "super_exchange" then "Super Ambassador"
  else if action == "assassinate" then "Assassin"
  else if action == "super_assassinate" then "Super Assassin"
  else if action == "coup" then "Coup"
  else if action == "super_coup" then "Super Coup"
  else action

/-- `GameLayout.tsx` `formatActionPhrase` (lines 296-314). -/
def formatActionPhrase (base : String) (action : String)
    (targetName : Option String) : String :=
  match targetName with
  | none => base
  | some t =>
    if action == "steal" || action == "super_steal" then
      base ++ " from " ++ t
    else
      base ++ " on " ++ t

/-- The `pa.target_id && view.players[pa.target_id] ? ... .name : null`
idiom: the (truthy) target id resolved to a player name. -/
def targetNameOf (v : GameView) (target_id : Option String) : Option String :=
  if truthyStr target_id then
    match target_id with
    | some tid =>
      match lookupPlayer v tid with
      | some p => some p.name
      | none => none
    | none => none
  else none

/-- `GameLayout.tsx` `buildCurrentActionSummary` (lines 317-348):
the global narration line, `null` when nothing is pending or a
referenced actor/blocker id dangles. -/
def buildCurrentActionSummary (v : GameView) : Option String :=
  match v.pending_block, v.pending_action with
  | some pb, some pa =>
    match lookupPlayer v pb.blocker_id, lookupPlayer v pa.actor_id with
    | some blocker, some actor =>
      let base := humanAction pa.action
      let actionPhrase := formatActionPhrase base pa.action (targetNameOf v pa.target_id)
      some (blocker.name ++ " attempts to block " ++ actor.name ++ "'s " ++ actionPhrase)
    | _, _ => none
  | none, some pa =>
    match lookupPlayer v pa.actor_id with
    | some actor =>
      let base := humanAction pa.action
      let phrase := formatActionPhrase base pa.action (targetNameOf v pa.target_id)
      some (actor.name ++ " attempts " ++ phrase)
    | none => none
  | _, none => none

/-- Outcome of the block-window branch of `ActionPanel`
(lines 687-827).  `infoSameTeam` / `infoOnlyTarget` are the info-only
notices (no buttons); `controls` is the full-control box whose five
fields say which buttons render: Block Foreign Aid, the two
Block-steal buttons, Block Assassin, Block Coup, and the
unconditional "Let it through" pass button. -/
inductive BlockPanelR
  | infoSameTeam
  | infoOnlyTarget
  | controls (blockFA blockSteal blockAssassin blockCoup letThrough : Bool)
deriving DecidableEq, Repr

/-- `ActionPanel` block-window branch (lines 687-827), starting after
the `if (!act) return null` guard is dealt with by the caller; returns
`none` exactly when `pending_action` is null. -/
def blockPanel (v : GameView) (youP : PublicPlayer) : Option BlockPanelR :=
  match v.pending_action with
  | none => none
  | some act =>
    let actorQ := lookupPlayer v act.actor_id
    let isTarget : Bool := decide (act.target_id = some youP.player_id)
    let isSameTeam : Bool :=
      match actorQ with
      | some a => decide (a.team = youP.team)
      | none => false
    let isTargetedAction : Bool :=
      ["steal", "super_steal", "assassinate", "super_assassinate", "coup"].contains act.action
    if isSameTeam then some .infoSameTeam
    else if isTargetedAction && !isTarget then some .infoOnlyTarget
    else
      let canBlockForeignAid :=
        decide (act.action = "foreign_aid") && !isSameTeam && actorQ.isSome
      let canBlockSteal :=
        (decide (act.action = "steal") || decide (act.action = "super_steal")) && isTarget
      let canBlockAssassinate :=
        (decide (act.action = "assassinate") || decide (act.action = "super_assassinate")) && isTarget
      let canBlockCoup :=
        decide (v.mode = GameMode.super_team) && decide (act.action = "coup") && isTarget
          && decide (2 ≤ youP.num_cards)
      some (.controls canBlockForeignAid canBlockSteal canBlockAssassinate canBlockCoup true)

/-- `ActionPanel` challenge-window branch (lines 561-684).  `none`
models `return null`; `some b` a rendered box whose `b` is
`canChallenge` — when true both the Challenge and the
Pass (no challenge) buttons render, when false text only. -/
def challengePanel (v : GameView) (youP : PublicPlayer) : Option Bool :=
  match v.pending_block, v.pending_action with
  | some pb, some pa =>
    match lookupPlayer v pb.blocker_id, lookupPlayer v pa.actor_id with
    | some blocker, some _ =>
      if decide (blocker.player_id = youP.player_id) then some false
      else if decide (blocker.team = youP.team) then some false
      else some youP.alive
    | _, _ => none
  | none, some pa =>
    match lookupPlayer v pa.actor_id with
    | some actor =>
      if decide (actor.player_id = youP.player_id) then some false
      else if decide (actor.team = youP.team) then some false
      else some youP.alive
    | none => none
  | _, none => none

/-- The twelve action buttons of the action-selection grid
(`ActionPanel`, lines 860-1039).  Each constructor is one button. -/
inductive GameAction
  | income
  | foreign_aid
  | tax
  | super_tax
  | exchange
  | super_exchange
  | assassinate
  | super_assassinate
  | steal
  | super_steal
  | coup
  | super_coup
deriving DecidableEq, Repr

/-- The wire string each button dispatches (`selectOrUseTarget("...")`). -/
def GameAction.key : GameAction → String
  | .income => "income"
  | .foreign_aid => "foreign_aid"
  | .tax => "tax"
  | .super_tax => "super_tax"
  | .exchange => "exchange"
  | .super_exchange => "super_exchange"
  | .assassinate => "assassinate"
  | .super_assassinate => "super_assassinate"
  | .steal => "steal"
  | .super_steal => "super_steal"
  | .coup => "coup"
  | .super_coup => "super_coup"

/-- `GameLayout.tsx` line 70-77: the `targetRequiredActions` set. -/
def targetRequiredActions : List String :=
  ["coup", "assassinate", "super_assassinate", "steal", "super_steal", "super_coup"]

/-- `GameLayout.tsx` lines 42-43 and 67-68:
`canAct = phase === "action_selection" && isYourTurn && !isGameOver`. -/
def canActB (v : GameView) : Bool :=
  decide (v.phase = GamePhase.action_selection)
    && decide (v.current_player = some v.you)
    && !decide (v.phase = GamePhase.game_over)

/-- `GameLayout.tsx` lines 79-84: the selected target resolved against
`players` (`null` when nothing is selected or the id dangles). -/
def selectedTargetPlayer (v : GameView) (sel : Option String) : Option PublicPlayer :=
  if truthyStr sel then
    match sel with
    | some t => lookupPlayer v t
    | none => none
  else none

/-- `GameLayout.tsx` lines 83-84: `targetHasCoins`. -/
def targetHasCoinsB (v : GameView) (sel : Option String) : Bool :=
  match selectedTargetPlayer v sel with
  | some p => decide (0 < p.coins)
  | none => false

/-- `ActionPanel` line 831: `canUseSupers = you.num_cards >= 2 && superMode`. -/
def canUseSupersB (v : GameView) (youP : PublicPlayer) : Bool :=
  decide (2 ≤ youP.num_cards) && decide (v.mode = GameMode.super_team)

/-- Whether an action button of the action-selection grid is enabled,
read off the `disabled={...}` attribute of each button (lines 860-1039);
a super-variant button is only rendered when `superMode` holds, and an
unrendered button counts as not enabled. -/
def actionEnabled (v : GameView) (youP : PublicPlayer) (sel : Option String) :
    GameAction → Bool
  | .income => !(!(canActB v))
  | .foreign_aid => !(!(canActB v))
  | .tax => !(!(canActB v))
  | .exchange => !(!(canActB v))
  | .coup =>
    !(!(canActB v) || decide (youP.coins < 7) || !(truthyStr sel))
  | .super_coup =>
    decide (v.mode = GameMode.super_team)
      && !(!(canActB v) || decide (youP.coins < 12) || !(truthyStr sel))
  | .assassinate =>
    !(!(canActB v) || decide (youP.coins < 3) || !(truthyStr sel))
  | .super_assassinate =>
    decide (v.mode = GameMode.super_team)
      && !(!(canActB v) || decide (youP.coins < 3) || !(truthyStr sel)
            || !(canUseSupersB v youP))
  | .steal =>
    !(!(canActB v) || !(truthyStr sel) || !(targetHasCoinsB v sel))
  | .super_steal =>
    decide (v.mode = GameMode.super_team)
      && !(!(canActB v) || !(truthyStr sel) || !(targetHasCoinsB v sel)
            || !(canUseSupersB v youP))
  | .super_tax =>
    decide (v.mode = GameMode.super_team)
      && !(!(canActB v) || !(canUseSupersB v youP))
  | .super_exchange =>
    decide (v.mode = GameMode.super_team)
      && !(!(canActB v) || !(canUseSupersB v youP))

/-- What the `ActionPanel` component renders, one constructor per
phase-branch outcome.  `nothing` models `return null`. -/
inductive PanelOut
  | nothing
  | lobbyBox (playerCount : Nat) (startEnabled : Bool)
  | gameOverBox
  | swapBox
  | lossBox
  | challengeBox (canChallenge : Bool)
  | blockBox (r : BlockPanelR)
  | actionGrid
deriving DecidableEq, Repr

/-- `ActionPanel` (lines 488-1045) as a function of its props.
`.error ()` models a thrown TypeError: in the action-selection branch,
`view.players[selectedTarget].name` (line 855) dereferences the lookup
result without a guard, so a dangling selected id throws. -/
def actionPanelRender (v : GameView) (youP : PublicPlayer)
    (sel : Option String) : Except Unit PanelOut :=
  match v.phase with
  | .lobby => .ok (.lobbyBox v.players.length true)
  | .game_over => .ok .gameOverBox
  | .swap_choice => .ok .swapBox
  | .loss_choice =>
    let lossPlayerId := v.loss_choice_player_id
    let lossPlayerQ :=
      if truthyStr lossPlayerId then
        match lossPlayerId with
        | some i => lookupPlayer v i
        | none => none
      else none
    match lossPlayerQ with
    | none => .ok .nothing
    | some _ => .ok .lossBox
  | .challenge_window =>
    match challengePanel v youP with
    | none => .ok .nothing
    | some b => .ok (.challengeBox b)
  | .block_window =>
    match blockPanel v youP with
    | none => .ok .nothing
    | some r => .ok (.blockBox r)
  | .action_selection =>
    if truthyStr sel then
      match sel with
      | some t =>
        match lookupPlayer v t with
        | none => .error ()
        | some _ => .ok .actionGrid
      | none => .ok .actionGrid
    else .ok .actionGrid

/-- `GameLayout` (lines 29-294): resolves `you = view.players[view.you]`
and renders.  When the viewer id dangles, `you` is `undefined` and the
unconditional `orderedIds.indexOf(you.player_id)` (line 57) throws. -/
def gameLayoutRender (v : GameView) (sel : Option String) : Except Unit PanelOut :=
  match lookupPlayer v v.you with
  | none => .error ()
  | some youP => actionPanelRender v youP sel

/-- The component-local state the target-selection logic reads:
the snapshot phase plus `selectedTarget` (`useState`, line 45). -/
structure SelCtx where
  phase : GamePhase
  sel : Option String
deriving DecidableEq, Repr

/-- Events hitting the selection state: a seat click
(`handleSeatClick`, lines 96-103), a button dispatch
(`selectOrUseTarget`, lines 86-94), and a fresh snapshot arriving with
a possibly different phase (nothing in the component resets
`selectedTarget` when `view` changes). -/
inductive SelEvent
  | seatClick (p : PublicPlayer) (youP : PublicPlayer)
  | dispatch (action : String)
  | viewUpdate (newPhase : GamePhase)

/-- One step of the selection state machine, read off the source. -/
def selStep : SelCtx → SelEvent → SelCtx
  | ⟨ph, sel⟩, .seatClick p youP =>
    if !p.alive then ⟨ph, sel⟩
    else if decide (p.team = youP.team) then ⟨ph, sel⟩
    else if decide (p.player_id = youP.player_id) then ⟨ph, sel⟩
    else ⟨ph, if decide (sel = some p.player_id) then none else some p.player_id⟩
  | ⟨ph, sel⟩, .dispatch action =>
    if targetRequiredActions.contains action then
      if truthyStr sel then ⟨ph, none⟩ else ⟨ph, sel⟩
    else ⟨ph, sel⟩
  | ⟨_, sel⟩, .viewUpdate ph2 => ⟨ph2, sel⟩

/-- `App.tsx` `POLL_MS` (line 19). -/
def pollMs : Nat := 1200

/-- State of the polling effect in `App.tsx` (lines 33-54):
`cancelled` is the `cancel` flag set by the effect cleanup;
`outstanding` counts fetches started and not yet settled;
`timer` is the pending `setTimeout` delay, when one is scheduled;
`view` is the committed `GameView` (abstracted to a payload number);
`started` records that the effect body ran `loop()` once. -/
structure PollState where
  cancelled : Bool
  outstanding : Nat
  timer : Option Nat
  view : Option Nat
  started : Bool
deriving DecidableEq, Repr

/-- Observable atomic steps of the polling loop. -/
inductive PollEvent
  | start
  | settleOk (payload : Nat)
  | settleErr
  | timerFire
  | stop

def pollInit : PollState :=
  { cancelled := false, outstanding := 0, timer := none, view := none, started := false }

/-- One step of the polling loop, read off `App.tsx` lines 33-54.
`none` means the event cannot occur in that state.
`start` is the effect body's initial `loop()` call (a fetch begins).
A settle first runs `if (!cancel) setView(v)` (only for a success),
then `if (!cancel) setTimeout(loop, POLL_MS)`.  `timerFire` runs
`loop` again (the cleanup never clears a pending timeout, so a timer
may still fire after `stop`).  `stop` is the cleanup setting
`cancel = true`. -/
def pollStep (s : PollState) : PollEvent → Option PollState
  | .start =>
    if s.started then none
    else some { s with started := true, outstanding := s.outstanding + 1 }
  | .settleOk payload =>
    if decide (s.outstanding = 0) then none
    else some { s with
      outstanding := s.outstanding - 1,
      view := if s.cancelled then s.view else some payload,
      timer := if s.cancelled then s.timer else some pollMs }
  | .settleErr =>
    if decide (s.outstanding = 0) then none
    else some { s with
      outstanding := s.outstanding - 1,
      timer := if s.cancelled then s.timer else some pollMs }
  | .timerFire =>
    match s.timer with
    | none => none
    | some _ => some { s with timer := none, outstanding := s.outstanding + 1 }
  | .stop => some { s with cancelled := true }

/-- Run a sequence of events from a state; `none` if any event is
impossible where it occurs. -/
def pollRunFrom (s : PollState) : List PollEvent → Option PollState
  | [] => some s
  | e :: es =>
    match pollStep s e with
    | none => none
    | some s2 => pollRunFrom s2 es

/-- A whole session trace from the initial state. -/
def pollRun (es : List PollEvent) : Option PollState :=
  pollRunFrom pollInit es

/-! ## Spec-side statement of the action table (claim C1's words) -/

/-- "a selected target whose coins > 0": the selection names a player
found in `players` with positive coins. -/
def claimedSelTargetRich (v : GameView) (sel : Option String) : Bool :=
  match sel with
  | some t =>
    match lookupPlayer v t with
    | some p => decide (0 < p.coins)
    | none => false
  | none => false

/-- The enabling conjunction exactly as the claim's action table words
it, for a viewer who is the current player in `action_selection`:
income / foreign_aid / tax / exchange unconditional; coup = coins ≥ 7
and a non-null target; assassinate = coins ≥ 3 and a target; steal = a
selected target with coins > 0; the four super variants additionally
demand super mode and ≥ 2 influence cards; super_coup = super mode,
coins ≥ 12 and a target with no card-count requirement. -/
def claimedActionEnabled (v : GameView) (youP : PublicPlayer) (sel : Option String) :
    GameAction → Bool
  | .income => true
  | .foreign_aid => true
  | .tax => true
  | .exchange => true
  | .coup => decide (7 ≤ youP.coins) && sel.isSome
  | .assassinate => decide (3 ≤ youP.coins) && sel.isSome
  | .steal => claimedSelTargetRich v sel
  | .super_tax => decide (v.mode = GameMode.super_team) && decide (2 ≤ youP.num_cards)
  | .super_exchange => decide (v.mode = GameMode.super_team) && decide (2 ≤ youP.num_cards)
  | .super_assassinate =>
    decide (3 ≤ youP.coins) && sel.isSome
      && decide (v.mode = GameMode.super_team) && decide (2 ≤ youP.num_cards)
  | .super_steal =>
    claimedSelTargetRich v sel
      && decide (v.mode = GameMode.super_team) && decide (2 ≤ youP.num_cards)
  | .super_coup =>
    decide (v.mode = GameMode.super_team) && decide (12 ≤ youP.coins) && sel.isSome

/-! ## Concrete fixtures -/

def alice : PublicPlayer :=
  { player_id := "p1", name := "Alice", team := Team.A, coins := 7, alive := true,
    num_cards := 2, cards := some ["Duke", "Assassin"] }

def bob : PublicPlayer :=
  { player_id := "p2", name := "Bob", team := Team.B, coins := 2, alive := true,
    num_cards := 2, cards := none }

def cara : PublicPlayer :=
  { player_id := "p3", name := "Cara", team := Team.A, coins := 1, alive := true,
    num_cards := 1, cards := none }

def dan : PublicPlayer :=
  { player_id := "p4", name := "Dan", team := Team.B, coins := 3, alive := true,
    num_cards := 2, cards := none }

def basePlayers : List (String × PublicPlayer) :=
  [("p1", alice), ("p2", bob), ("p3", cara), ("p4", dan)]

/-- A well-formed 4-player snapshot used as the base of the concrete
fixtures; individual fixtures override fields. -/
def baseView : GameView :=
  { game_id := "g1", mode := GameMode.normal_team, phase := GamePhase.action_selection,
    you := "p1", current_player := some "p1", turn_order := ["p1", "p2", "p3", "p4"],
    players := basePlayers, winner_team := none, logs := [],
    pending_action := none, pending_block := none,
    exchange_pool_size := 0, exchange_cards := none,
    loss_choice_player_id := none, loss_choice_cards := none,
    deck_size := 5, revealed_cards := [] }

/-- Super-mode block window: Alice has dispatched `super_coup` on Bob
(who holds 2 influence cards). -/
def superCoupView : GameView :=
  { baseView with
    mode := GameMode.super_team, phase := GamePhase.block_window,
    you := "p2", current_player := some "p1",
    pending_action := some { actor_id := "p1", action := "super_coup", target_id := some "p2" } }

/-- Lobby snapshot with three players. -/
def lobby3View : GameView :=
  { baseView with
    phase := GamePhase.lobby, current_player := none,
    players := [("p1", alice), ("p2", bob), ("p3", cara)],
    turn_order := [] }

/-- Snapshot whose viewer id `ghost` is not a key of `players`. -/
def ghostViewerView : GameView :=
  { baseView with you := "ghost" }

/-- A second block-window fixture: Dan (team B) views Alice's pending
`super_coup` on Bob — Dan is neither on the actor's team nor the target. -/
def superCoupDanView : GameView :=
  { superCoupView with you := "p4" }

/-- Challenge window over a pending block: Bob (team B) blocks
Alice's foreign aid. -/
def challengeBlockView : GameView :=
  { baseView with
    phase := GamePhase.challenge_window,
    pending_action := some { actor_id := "p1", action := "foreign_aid", target_id := none },
    pending_block := some { blocker_id := "p2", block_type := "block_foreign_aid" } }

/-- Challenge window over a pending action only: Alice claims Duke. -/
def challengeActionView : GameView :=
  { baseView with
    phase := GamePhase.challenge_window, you := "p2",
    pending_action := some { actor_id := "p1", action := "tax", target_id := none } }

/-- Block window for Alice's pending foreign aid, viewed from team B. -/
def faBlockView : GameView :=
  { baseView with
    phase := GamePhase.block_window, you := "p2",
    pending_action := some { actor_id := "p1", action := "foreign_aid", target_id := none } }

/-- Bob after losing both influence cards (dead). -/
def bobDead : PublicPlayer :=
  { bob with alive := false }

/-- Invariant of the polling loop: at most one of {an outstanding
fetch, a pending timer} exists; nothing is outstanding or scheduled
before the effect body ran; a scheduled timer always uses the fixed
interval. -/
def PollInv (s : PollState) : Prop :=
  s.outstanding + (if s.timer.isSome then 1 else 0) ≤ 1 ∧
  (s.started = false → s.outstanding = 0 ∧ s.timer = none) ∧
  (s.timer = none ∨ s.timer = some pollMs)

/-! ## Theorems -/

/-- C8: for a viewer at canonical index `indexOf youId` of `turn_order`,
the rotated order starts with the viewer and the remaining elements
preserve the original cyclic adjacency (a left rotation); when the
viewer id does not occur, the canonical order is returned unmodified. -/
theorem seat_rotation_spec (order : List String) (youId : String) :
    (youId ∈ order →
      (rotatedIds order youId).length = order.length ∧
      (rotatedIds order youId)[0]? = some youId ∧
      ∀ j, j < order.length →
        (rotatedIds order youId)[j]? =
          order[(j + order.indexOf youId) % order.length]?) ∧
    (youId ∉ order → rotatedIds order youId = order) := by
  constructor
  · intro hmem
    have hlt : order.indexOf youId < order.length := List.indexOf_lt_length.2 hmem
    have hrot : rotatedIds order youId = order.rotate (order.indexOf youId) := by
      rw [rotatedIds, if_pos hmem, List.rotate_eq_drop_append_take hlt.le]
    have hlen : (0 : Nat) < order.length := Nat.lt_of_le_of_lt (Nat.zero_le _) hlt
    refine ⟨by rw [hrot, List.length_rotate], ?_, ?_⟩
    · rw [hrot, List.getElem?_rotate hlen, Nat.zero_add, Nat.mod_eq_of_lt hlt]
      exact List.getElem?_indexOf hmem
    · intro j hj
      rw [hrot, List.getElem?_rotate hj]
  · intro hmem
    rw [rotatedIds, if_neg hmem]

/-- Witness for C8 at a concrete order. -/
theorem seat_rotation_spec_witness :
    (rotatedIds ["p1", "p2", "p3", "p4"] "p3")[0]? = some "p3" ∧
    rotatedIds ["p1", "p2", "p3", "p4"] "zz" = ["p1", "p2", "p3", "p4"] :=
  ⟨((seat_rotation_spec ["p1", "p2", "p3", "p4"] "p3").1 (by decide)).2.1,
   (seat_rotation_spec ["p1", "p2", "p3", "p4"] "zz").2 (by decide)⟩

/-- C2 counterexample: in a super-mode game Bob is the target of a
pending `super_coup` and holds two influence cards, yet the rendered
block panel carries no `block_coup` control (all four block flags are
false; only the pass button shows): the code keys `block_coup` on the
action string `"coup"`, not `"super_coup"`. -/
theorem super_coup_block_counterexample :
    superCoupView.mode = GameMode.super_team ∧
    superCoupView.phase = GamePhase.block_window ∧
    superCoupView.pending_action =
      some { actor_id := "p1", action := "super_coup", target_id := some "p2" } ∧
    superCoupView.you = "p2" ∧ bob.player_id = "p2" ∧ bob.num_cards = 2 ∧
    gameLayoutRender superCoupView none =
      Except.ok (PanelOut.blockBox (BlockPanelR.controls false false false false true)) := by
  refine ⟨rfl, rfl, rfl, rfl, rfl, rfl, ?_⟩
  rfl

/-- C3 counterexample: a lobby snapshot with three players still
renders the start-game control enabled (the button carries no
`disabled` attribute), refuting "enabled if and only if 4 or 6". -/
theorem lobby_start_counterexample :
    lobby3View.phase = GamePhase.lobby ∧
    lobby3View.players.length = 3 ∧
    ¬(lobby3View.players.length = 4 ∨ lobby3View.players.length = 6) ∧
    gameLayoutRender lobby3View none = Except.ok (PanelOut.lobbyBox 3 true) := by
  refine ⟨rfl, rfl, by decide, ?_⟩
  rfl

/-- C4 counterexample: when the viewer id is not a key of `players`,
the layout does not yield a null affordance — it throws
(`you.player_id` on `undefined`, GameLayout line 57). -/
theorem dangling_viewer_counterexample :
    lookupPlayer ghostViewerView ghostViewerView.you = none ∧
    gameLayoutRender ghostViewerView none = Except.error () := by
  exact ⟨rfl, rfl⟩

/-- C5 counterexample: Alice selects Bob during `action_selection`;
the next snapshot moves the phase to `block_window` and nothing resets
the selection, so `selectedTargetId` is non-null outside
`action_selection`. -/
theorem selection_persists_counterexample :
    selStep (selStep ⟨GamePhase.action_selection, none⟩ (SelEvent.seatClick bob alice))
        (SelEvent.viewUpdate GamePhase.block_window) =
      ⟨GamePhase.block_window, some "p2"⟩ ∧
    GamePhase.block_window ≠ GamePhase.action_selection := by
  exact ⟨rfl, by decide⟩

/-- C6 counterexample: Dan is neither on the actor's team nor the
target of the pending `super_coup`, yet his panel is the full control
box with the "Let it through" pass button (last flag `true`) rather
than an info-only notice: `super_coup` is missing from the
`isTargetedAction` list. -/
theorem super_coup_bystander_counterexample :
    superCoupDanView.pending_action =
      some { actor_id := "p1", action := "super_coup", target_id := some "p2" } ∧
    superCoupDanView.you = "p4" ∧ dan.team = Team.B ∧ alice.team = Team.A ∧
    gameLayoutRender superCoupDanView none =
      Except.ok (PanelOut.blockBox (BlockPanelR.controls false false false false true)) := by
  refine ⟨rfl, rfl, rfl, rfl, ?_⟩
  rfl

lemma truthyStr_eq_isSome {sel : Option String} (h : sel ≠ some "") :
    truthyStr sel = sel.isSome := by
  cases sel with
  | none => rfl
  | some s =>
    have hs : s ≠ "" := fun he => h (by rw [he])
    have hne : s.isEmpty = false := by
      cases he : s.isEmpty
      · rfl
      · exact absurd ((String.isEmpty_iff s).1 he) hs
    simp [truthyStr, Option.isSome, hne]

lemma canActB_eq_true {v : GameView} (hph : v.phase = GamePhase.action_selection)
    (hcur : v.current_player = some v.you) : canActB v = true := by
  simp [canActB, hph, hcur]

lemma not_decide_lt (a b : Nat) : (!decide (a < b)) = decide (b ≤ a) := by
  by_cases h : a < b
  · simp [h, Nat.not_le.2 h]
  · simp [h, Nat.not_lt.1 h]

lemma rich_isSome {v : GameView} {sel : Option String}
    (h : claimedSelTargetRich v sel = true) : sel.isSome = true := by
  cases sel with
  | none => simp [claimedSelTargetRich] at h
  | some s => rfl

lemma isSome_and_rich (v : GameView) (sel : Option String) :
    (sel.isSome && claimedSelTargetRich v sel) = claimedSelTargetRich v sel := by
  cases hr : claimedSelTargetRich v sel
  · simp
  · simp [rich_isSome hr]

lemma targetHasCoinsB_eq_rich {v : GameView} {sel : Option String}
    (h : sel ≠ some "") : targetHasCoinsB v sel = claimedSelTargetRich v sel := by
  cases sel with
  | none => rfl
  | some s =>
    have hs : truthyStr (some s) = true := by
      rw [truthyStr_eq_isSome h]; rfl
    simp [targetHasCoinsB, selectedTargetPlayer, claimedSelTargetRich, hs]

/-- C1: in `action_selection` with the viewer as current player (and no
empty-string player id selected), every button's enabled condition
coincides with the claim's action table; every target-requiring action
is disabled while nothing is selected; and dispatching a targeted
action clears the selection. -/
theorem action_selection_table (v : GameView) (youP : PublicPlayer)
    (sel : Option String) (hph : v.phase = GamePhase.action_selection)
    (hcur : v.current_player = some v.you) (hsel : sel ≠ some "") :
    (∀ a, actionEnabled v youP sel a = claimedActionEnabled v youP sel a) ∧
    (∀ a : GameAction, a.key ∈ targetRequiredActions → sel = none →
      actionEnabled v youP sel a = false) ∧
    (∀ (ph : GamePhase) (s action : String), s ≠ "" →
      targetRequiredActions.contains action = true →
      (selStep ⟨ph, some s⟩ (SelEvent.dispatch action)).sel = none) := by
  have hca := canActB_eq_true hph hcur
  have hts := truthyStr_eq_isSome hsel
  have hth := targetHasCoinsB_eq_rich (v := v) hsel
  refine ⟨?_, ?_, ?_⟩
  · intro a
    cases a <;>
      simp [actionEnabled, claimedActionEnabled, hca, hts, hth, not_decide_lt,
        canUseSupersB, Bool.not_or, Bool.and_assoc, Bool.and_comm, Bool.and_left_comm,
        isSome_and_rich]
  · intro a hmem hnone
    subst hnone
    cases a <;>
      simp_all [actionEnabled, truthyStr, targetRequiredActions, GameAction.key,
        targetHasCoinsB, selectedTargetPlayer]
  · intro ph s action hs hcontains
    have hts2 : truthyStr (some s) = true := by
      rw [truthyStr_eq_isSome (fun he => hs (by injection he))]; rfl
    have hmem : action ∈ targetRequiredActions := by simpa using hcontains
    simp [selStep, hmem, hts2]

/-- Witness for C1: Alice (current player, 7 coins, 2 cards) with Bob
selected in the normal-mode base snapshot; coup enabling matches the
table and dispatching coup clears the selection. -/
theorem action_selection_table_witness :
    actionEnabled baseView alice (some "p2") GameAction.coup =
      claimedActionEnabled baseView alice (some "p2") GameAction.coup ∧
    actionEnabled baseView alice (some "p2") GameAction.steal =
      claimedActionEnabled baseView alice (some "p2") GameAction.steal ∧
    (selStep ⟨GamePhase.action_selection, some "p2"⟩ (SelEvent.dispatch "coup")).sel = none :=
  ⟨(action_selection_table baseView alice (some "p2") rfl rfl (by decide)).1 GameAction.coup,
   (action_selection_table baseView alice (some "p2") rfl rfl (by decide)).1 GameAction.steal,
   (action_selection_table baseView alice (some "p2") rfl rfl (by decide)).2.2
     GamePhase.action_selection "p2" "coup" (by decide) rfl⟩

/-- C3 (amended): in the lobby phase the start-game affordance is
always rendered enabled, whatever the player count. -/
theorem lobby_start_always_enabled (v : GameView) (sel : Option String)
    (youP : PublicPlayer) (hph : v.phase = GamePhase.lobby)
    (hyou : lookupPlayer v v.you = some youP) :
    gameLayoutRender v sel = Except.ok (PanelOut.lobbyBox v.players.length true) := by
  simp [gameLayoutRender, hyou, actionPanelRender, hph]

/-- Witness for the amended C3 at the 3-player lobby. -/
theorem lobby_start_always_enabled_witness :
    gameLayoutRender lobby3View none =
      Except.ok (PanelOut.lobbyBox lobby3View.players.length true) :=
  lobby_start_always_enabled lobby3View none alice rfl rfl

/-- C5 (amended): dispatching a target-requiring action with a truthy
selection clears the selection; a snapshot update (phase transition
included) leaves the selection untouched. -/
theorem selection_reset_rules :
    (∀ (s : SelCtx) (action : String), targetRequiredActions.contains action = true →
      truthyStr s.sel = true → (selStep s (SelEvent.dispatch action)).sel = none) ∧
    (∀ (s : SelCtx) (ph2 : GamePhase), (selStep s (SelEvent.viewUpdate ph2)).sel = s.sel) := by
  constructor
  · intro s action hc ht
    have hmem : action ∈ targetRequiredActions := by simpa using hc
    cases s with
    | mk ph sel => simp [selStep, hmem, ht]
  · intro s ph2
    cases s
    rfl

/-- Witness for the amended C5. -/
theorem selection_reset_rules_witness :
    (selStep ⟨GamePhase.action_selection, some "p2"⟩ (SelEvent.dispatch "coup")).sel = none ∧
    (selStep ⟨GamePhase.block_window, some "p2"⟩ (SelEvent.viewUpdate GamePhase.lobby)).sel =
      (⟨GamePhase.block_window, some "p2"⟩ : SelCtx).sel :=
  ⟨selection_reset_rules.1 ⟨GamePhase.action_selection, some "p2"⟩ "coup" rfl rfl,
   selection_reset_rules.2 ⟨GamePhase.block_window, some "p2"⟩ GamePhase.lobby⟩

lemma blockBox_iff {v : GameView} (youP : PublicPlayer) (sel : Option String)
    (r : BlockPanelR) (hph : v.phase = GamePhase.block_window) :
    actionPanelRender v youP sel = Except.ok (PanelOut.blockBox r) ↔
      blockPanel v youP = some r := by
  rcases h : blockPanel v youP with _ | r2 <;> simp [actionPanelRender, hph, h]

lemma challengeBox_iff {v : GameView} (youP : PublicPlayer) (sel : Option String)
    (b : Bool) (hph : v.phase = GamePhase.challenge_window) :
    actionPanelRender v youP sel = Except.ok (PanelOut.challengeBox b) ↔
      challengePanel v youP = some b := by
  rcases h : challengePanel v youP with _ | b2 <;> simp [actionPanelRender, hph, h]

/-- C2 (amended): in the block_window phase the `block_coup` control
renders exactly when the pending action is a plain `coup` in a
super-mode game, the viewer is its target, the viewer holds ≥ 2
influence cards, and the actor — when found in `players` — is not on
the viewer's team.  Part 1: no pending action renders nothing; part 2
(only-if): any panel carrying `block_coup` forces every one of those
conditions — so it is never offered for a pending `super_coup`, never
to a non-target, never to a holder of ≤ 1 card, never for another
action; part 3 (if): the conditions produce the panel whose only block
button is `block_coup`, next to the pass button. -/
theorem block_coup_gating :
    (∀ (v : GameView) (youP : PublicPlayer) (sel : Option String),
      v.phase = GamePhase.block_window → v.pending_action = none →
      actionPanelRender v youP sel = Except.ok PanelOut.nothing) ∧
    (∀ (v : GameView) (youP : PublicPlayer) (sel : Option String)
        (act : PublicAction) (fa st ass lt : Bool),
      v.phase = GamePhase.block_window → v.pending_action = some act →
      actionPanelRender v youP sel =
        Except.ok (PanelOut.blockBox (BlockPanelR.controls fa st ass true lt)) →
      v.mode = GameMode.super_team ∧ act.action = "coup" ∧
      act.target_id = some youP.player_id ∧ 2 ≤ youP.num_cards ∧
      ∀ a, lookupPlayer v act.actor_id = some a → a.team ≠ youP.team) ∧
    (∀ (v : GameView) (youP : PublicPlayer) (sel : Option String) (act : PublicAction),
      v.phase = GamePhase.block_window → v.pending_action = some act →
      act.action = "coup" → v.mode = GameMode.super_team →
      act.target_id = some youP.player_id → 2 ≤ youP.num_cards →
      (∀ a, lookupPlayer v act.actor_id = some a → a.team ≠ youP.team) →
      actionPanelRender v youP sel =
        Except.ok (PanelOut.blockBox (BlockPanelR.controls false false false true true))) := by
  refine ⟨?_, ?_, ?_⟩
  · intro v youP sel hph hpa
    simp [actionPanelRender, hph, blockPanel, hpa]
  · intro v youP sel act fa st ass lt hph hpa hrender
    rw [blockBox_iff youP sel _ hph] at hrender
    simp only [blockPanel, hpa] at hrender
    split at hrender
    · simp at hrender
    · split at hrender
      · simp at hrender
      · next hsame hinfo =>
        have hflag := Option.some.inj hrender
        rw [BlockPanelR.controls.injEq] at hflag
        obtain ⟨-, -, -, hcoup, -⟩ := hflag
        simp only [Bool.and_eq_true, decide_eq_true_eq] at hcoup
        obtain ⟨⟨⟨hmode, haction⟩, htarget⟩, hcards⟩ := hcoup
        refine ⟨hmode, haction, htarget, hcards, ?_⟩
        intro a hla hteamEq
        apply hsame
        rw [hla]
        simpa using hteamEq
  · intro v youP sel act hph hpa haction hmode htarget hcards hteam
    rw [blockBox_iff youP sel _ hph]
    rcases hla : lookupPlayer v act.actor_id with _ | a
    · simp [blockPanel, hpa, haction, hmode, htarget, hcards, hla]
    · have hteamd : decide (a.team = youP.team) = false :=
        decide_eq_false (hteam a hla)
      simp [blockPanel, hpa, haction, hmode, htarget, hcards, hla, hteamd]

/-- Witness for the amended C2: a block window with nothing pending
renders nothing, and Bob — target of Alice's plain coup in super mode
with two cards — gets exactly the `block_coup` control. -/
theorem block_coup_gating_witness :
    actionPanelRender { baseView with phase := GamePhase.block_window } bob none =
      Except.ok PanelOut.nothing ∧
    actionPanelRender
        { superCoupView with
          pending_action := some { actor_id := "p1", action := "coup", target_id := some "p2" } }
        bob none =
      Except.ok (PanelOut.blockBox (BlockPanelR.controls false false false true true)) ∧
    ({ superCoupView with
        pending_action := some { actor_id := "p1", action := "coup", target_id := some "p2" } }
      : GameView).mode = GameMode.super_team :=
  ⟨block_coup_gating.1 { baseView with phase := GamePhase.block_window } bob none rfl rfl,
   block_coup_gating.2.2
    { superCoupView with
      pending_action := some { actor_id := "p1", action := "coup", target_id := some "p2" } }
    bob none { actor_id := "p1", action := "coup", target_id := some "p2" }
    rfl rfl rfl rfl rfl (by decide)
    (fun a hla => by
      obtain rfl := Option.some.inj ((by exact hla : some alice = some a))
      decide),
   (block_coup_gating.2.1
    { superCoupView with
      pending_action := some { actor_id := "p1", action := "coup", target_id := some "p2" } }
    bob none { actor_id := "p1", action := "coup", target_id := some "p2" }
    false false false true rfl rfl rfl).1⟩

/-- C6 (amended): for a pending steal / super_steal / assassinate /
super_assassinate / coup, a viewer neither on the actor's team nor the
target gets the info-only notice, and a viewer on the actor's team gets
the info-only notice for every action; a pending `super_coup`, however,
shows every non-teammate the control box with only the pass button. -/
theorem block_window_info_rules :
    (∀ (v : GameView) (youP : PublicPlayer) (sel : Option String)
        (act : PublicAction) (actor : PublicPlayer),
      v.phase = GamePhase.block_window → v.pending_action = some act →
      act.action ∈ (["steal", "super_steal", "assassinate", "super_assassinate", "coup"] : List String) →
      lookupPlayer v act.actor_id = some actor → actor.team ≠ youP.team →
      act.target_id ≠ some youP.player_id →
      actionPanelRender v youP sel = Except.ok (PanelOut.blockBox BlockPanelR.infoOnlyTarget)) ∧
    (∀ (v : GameView) (youP : PublicPlayer) (sel : Option String)
        (act : PublicAction) (actor : PublicPlayer),
      v.phase = GamePhase.block_window → v.pending_action = some act →
      lookupPlayer v act.actor_id = some actor → actor.team = youP.team →
      actionPanelRender v youP sel = Except.ok (PanelOut.blockBox BlockPanelR.infoSameTeam)) ∧
    (∀ (v : GameView) (youP : PublicPlayer) (sel : Option String)
        (act : PublicAction) (actor : PublicPlayer),
      v.phase = GamePhase.block_window → v.pending_action = some act →
      act.action = "super_coup" →
      lookupPlayer v act.actor_id = some actor → actor.team ≠ youP.team →
      actionPanelRender v youP sel =
        Except.ok (PanelOut.blockBox (BlockPanelR.controls false false false false true))) := by
  refine ⟨?_, ?_, ?_⟩
  · intro v youP sel act actor hph hpa hmem hactor hteam htarget
    have hteamd : decide (actor.team = youP.team) = false := decide_eq_false hteam
    have htargetd : decide (act.target_id = some youP.player_id) = false :=
      decide_eq_false htarget
    rw [blockBox_iff youP sel _ hph]
    simp only [List.mem_cons, List.not_mem_nil, or_false] at hmem
    rcases hmem with h | h | h | h | h <;>
      simp [blockPanel, hpa, h, hactor, hteamd, htargetd]
  · intro v youP sel act actor hph hpa hactor hteam
    rw [blockBox_iff youP sel _ hph]
    simp [blockPanel, hpa, hactor, hteam]
  · intro v youP sel act actor hph hpa haction hactor hteam
    have hteamd : decide (actor.team = youP.team) = false := decide_eq_false hteam
    rw [blockBox_iff youP sel _ hph]
    simp [blockPanel, hpa, haction, hactor, hteamd]

/-- Witness for the amended C6: Bob as non-target opponent of Alice's
assassinate on Cara; Cara as Alice's teammate. -/
theorem block_window_info_rules_witness :
    actionPanelRender
        { faBlockView with
          pending_action := some { actor_id := "p1", action := "assassinate", target_id := some "p3" } }
        bob none = Except.ok (PanelOut.blockBox BlockPanelR.infoOnlyTarget) ∧
    actionPanelRender faBlockView cara none =
      Except.ok (PanelOut.blockBox BlockPanelR.infoSameTeam) :=
  ⟨block_window_info_rules.1
      { faBlockView with
        pending_action := some { actor_id := "p1", action := "assassinate", target_id := some "p3" } }
      bob none { actor_id := "p1", action := "assassinate", target_id := some "p3" } alice
      rfl rfl (by decide) rfl (by decide) (by decide),
   block_window_info_rules.2.1 faBlockView cara none
      { actor_id := "p1", action := "foreign_aid", target_id := none } alice
      rfl rfl rfl rfl⟩

/-- C7: in the challenge_window phase the eligibility is computed
against the pending block's blocker when a block is pending, and
otherwise against the pending action's actor; the resulting
challenge-and-pass controls are offered precisely to a living viewer
who is neither the claimant nor on the claimant's team
(`canChallenge = ¬claimant ∧ ¬teammate ∧ alive`). -/
theorem challenge_window_gating (v : GameView) (youP : PublicPlayer)
    (sel : Option String) (hph : v.phase = GamePhase.challenge_window) :
    (∀ (pa : PublicAction) (pb : PublicBlock) (blocker actor : PublicPlayer),
      v.pending_action = some pa → v.pending_block = some pb →
      lookupPlayer v pb.blocker_id = some blocker →
      lookupPlayer v pa.actor_id = some actor →
      actionPanelRender v youP sel = Except.ok (PanelOut.challengeBox
        (!decide (blocker.player_id = youP.player_id)
          && !decide (blocker.team = youP.team) && youP.alive))) ∧
    (∀ (pa : PublicAction) (actor : PublicPlayer),
      v.pending_action = some pa → v.pending_block = none →
      lookupPlayer v pa.actor_id = some actor →
      actionPanelRender v youP sel = Except.ok (PanelOut.challengeBox
        (!decide (actor.player_id = youP.player_id)
          && !decide (actor.team = youP.team) && youP.alive))) := by
  constructor
  · intro pa pb blocker actor hpa hpb hblocker hactor
    rw [challengeBox_iff youP sel _ hph]
    by_cases h1 : blocker.player_id = youP.player_id
    · simp [challengePanel, hpa, hpb, hblocker, hactor, h1]
    · by_cases h2 : blocker.team = youP.team
      · simp [challengePanel, hpa, hpb, hblocker, hactor, h1, h2]
      · simp [challengePanel, hpa, hpb, hblocker, hactor, h1, h2]
  · intro pa actor hpa hpb hactor
    rw [challengeBox_iff youP sel _ hph]
    by_cases h1 : actor.player_id = youP.player_id
    · simp [challengePanel, hpa, hpb, hactor, h1]
    · by_cases h2 : actor.team = youP.team
      · simp [challengePanel, hpa, hpb, hactor, h1, h2]
      · simp [challengePanel, hpa, hpb, hactor, h1, h2]

/-- Witness for C7: Cara (living, not the blocker Bob, not on Bob's
team) gets the challenge-and-pass box over the pending block; Bob gets
it over Alice's pending tax claim. -/
theorem challenge_window_gating_witness :
    actionPanelRender challengeBlockView cara none = Except.ok (PanelOut.challengeBox
      (!decide (bob.player_id = cara.player_id)
        && !decide (bob.team = cara.team) && cara.alive)) ∧
    actionPanelRender challengeActionView bob none = Except.ok (PanelOut.challengeBox
      (!decide (alice.player_id = bob.player_id)
        && !decide (alice.team = bob.team) && bob.alive)) :=
  ⟨(challenge_window_gating challengeBlockView cara none rfl).1
      { actor_id := "p1", action := "foreign_aid", target_id := none }
      { blocker_id := "p2", block_type := "block_foreign_aid" } bob alice rfl rfl rfl rfl,
   (challenge_window_gating challengeActionView bob none rfl).2
      { actor_id := "p1", action := "tax", target_id := none } alice rfl rfl rfl⟩

/-- C4 (amended): when the pending action's actor id — or, for a
pending block, the blocker id — is not found in `players`, the
narration and the challenge panel yield null without raising; the
viewer id and a held selection are not protected this way
(see the counterexample), and the block panel substitutes a
placeholder name instead of yielding null. -/
theorem dangling_actor_blocker_safe (v : GameView) (youP : PublicPlayer)
    (sel : Option String) :
    (∀ pa : PublicAction, v.pending_action = some pa →
      lookupPlayer v pa.actor_id = none →
      buildCurrentActionSummary v = none ∧
      (v.phase = GamePhase.challenge_window →
        actionPanelRender v youP sel = Except.ok PanelOut.nothing)) ∧
    (∀ (pa : PublicAction) (pb : PublicBlock), v.pending_action = some pa →
      v.pending_block = some pb → lookupPlayer v pb.blocker_id = none →
      buildCurrentActionSummary v = none ∧
      (v.phase = GamePhase.challenge_window →
        actionPanelRender v youP sel = Except.ok PanelOut.nothing)) := by
  constructor
  · intro pa hpa hactor
    constructor
    · rcases hpb : v.pending_block with _ | pb
      · simp [buildCurrentActionSummary, hpa, hpb, hactor]
      · rcases hb : lookupPlayer v pb.blocker_id with _ | blocker <;>
          simp [buildCurrentActionSummary, hpa, hpb, hactor, hb]
    · intro hph
      rcases hpb : v.pending_block with _ | pb
      · simp [actionPanelRender, hph, challengePanel, hpa, hpb, hactor]
      · rcases hb : lookupPlayer v pb.blocker_id with _ | blocker <;>
          simp [actionPanelRender, hph, challengePanel, hpa, hpb, hactor, hb]
  · intro pa pb hpa hpb hblocker
    refine ⟨?_, fun hph => ?_⟩
    · simp [buildCurrentActionSummary, hpa, hpb, hblocker]
    · simp [actionPanelRender, hph, challengePanel, hpa, hpb, hblocker]

/-- Witness for the amended C4: the fixture where the pending actor id
`zz` dangles. -/
theorem dangling_actor_blocker_safe_witness :
    buildCurrentActionSummary
        { baseView with
          phase := GamePhase.challenge_window,
          pending_action := some { actor_id := "zz", action := "tax", target_id := none } } =
      none ∧
    actionPanelRender
        { baseView with
          phase := GamePhase.challenge_window,
          pending_action := some { actor_id := "zz", action := "tax", target_id := none } }
        alice none = Except.ok PanelOut.nothing := by
  have h := (dangling_actor_blocker_safe
      { baseView with
        phase := GamePhase.challenge_window,
        pending_action := some { actor_id := "zz", action := "tax", target_id := none } }
      alice none).1
      { actor_id := "zz", action := "tax", target_id := none } rfl rfl
  exact ⟨h.1, h.2 rfl⟩

/-- C10: the block window never consults the viewer's `alive` flag
(the panel is invariant under flipping it), so a dead non-teammate
viewer of a pending foreign aid is still offered the Block Foreign Aid
and pass controls — whereas the challenge window gates its control on
`alive`, giving a dead opponent an info-only box. -/
theorem block_window_ignores_alive :
    (∀ (v : GameView) (youP : PublicPlayer) (b : Bool),
      blockPanel v { youP with alive := b } = blockPanel v youP) ∧
    (∀ (v : GameView) (youP : PublicPlayer) (sel : Option String)
        (act : PublicAction) (actor : PublicPlayer),
      v.phase = GamePhase.block_window → v.pending_action = some act →
      act.action = "foreign_aid" → lookupPlayer v act.actor_id = some actor →
      actor.team ≠ youP.team → youP.alive = false →
      actionPanelRender v youP sel =
        Except.ok (PanelOut.blockBox (BlockPanelR.controls true false false false true))) ∧
    (∀ (v : GameView) (youP : PublicPlayer) (sel : Option String)
        (pa : PublicAction) (actor : PublicPlayer),
      v.phase = GamePhase.challenge_window → v.pending_block = none →
      v.pending_action = some pa → lookupPlayer v pa.actor_id = some actor →
      actor.player_id ≠ youP.player_id → actor.team ≠ youP.team → youP.alive = false →
      actionPanelRender v youP sel = Except.ok (PanelOut.challengeBox false)) := by
  refine ⟨?_, ?_, ?_⟩
  · intro v youP b
    rcases hpa : v.pending_action with _ | act <;> simp [blockPanel, hpa]
  · intro v youP sel act actor hph hpa haction hactor hteam halive
    have hteamd : decide (actor.team = youP.team) = false := decide_eq_false hteam
    rw [blockBox_iff youP sel _ hph]
    simp [blockPanel, hpa, haction, hactor, hteamd]
  · intro v youP sel pa actor hph hpb hpa hactor hid hteam halive
    rw [challengeBox_iff youP sel _ hph]
    simp [challengePanel, hpa, hpb, hactor, hid, hteam, halive]

/-- Witness for C10: dead Bob still gets the foreign-aid block
controls, and dead Bob gets no challenge control. -/
theorem block_window_ignores_alive_witness :
    blockPanel faBlockView { bob with alive := false } = blockPanel faBlockView bob ∧
    actionPanelRender faBlockView bobDead none =
      Except.ok (PanelOut.blockBox (BlockPanelR.controls true false false false true)) ∧
    actionPanelRender challengeActionView bobDead none =
      Except.ok (PanelOut.challengeBox false) :=
  ⟨block_window_ignores_alive.1 faBlockView bob false,
   block_window_ignores_alive.2.1 faBlockView bobDead none
      { actor_id := "p1", action := "foreign_aid", target_id := none } alice
      rfl rfl rfl rfl (by decide) rfl,
   block_window_ignores_alive.2.2 challengeActionView bobDead none
      { actor_id := "p1", action := "tax", target_id := none } alice
      rfl rfl rfl rfl (by decide) (by decide) rfl⟩

lemma pollStep_cancelled {s s2 : PollState} {e : PollEvent}
    (hc : s.cancelled = true) (h : pollStep s e = some s2) :
    s2.view = s.view ∧ s2.cancelled = true := by
  cases e with
  | start =>
    simp only [pollStep] at h
    split at h
    · exact Option.noConfusion h
    · obtain rfl := Option.some.inj h
      exact ⟨rfl, hc⟩
  | settleOk payload =>
    simp only [pollStep] at h
    split at h
    · exact Option.noConfusion h
    · obtain rfl := Option.some.inj h
      simp [hc]
  | settleErr =>
    simp only [pollStep] at h
    split at h
    · exact Option.noConfusion h
    · obtain rfl := Option.some.inj h
      simp [hc]
  | timerFire =>
    rcases hti : s.timer with _ | t
    · simp only [pollStep, hti] at h
      exact Option.noConfusion h
    · simp only [pollStep, hti] at h
      obtain rfl := Option.some.inj h
      exact ⟨rfl, hc⟩
  | stop =>
    obtain rfl := Option.some.inj h
    exact ⟨rfl, rfl⟩

lemma pollRunFrom_cancelled {s s2 : PollState} {es : List PollEvent}
    (hc : s.cancelled = true) (h : pollRunFrom s es = some s2) :
    s2.view = s.view := by
  induction es generalizing s with
  | nil =>
    obtain rfl := Option.some.inj h
    rfl
  | cons e es ih =>
    simp only [pollRunFrom] at h
    rcases hstep : pollStep s e with _ | s3
    · rw [hstep] at h
      exact Option.noConfusion h
    · rw [hstep] at h
      have hsc := pollStep_cancelled hc hstep
      rw [ih hsc.2 h, hsc.1]

lemma pollInit_inv : PollInv pollInit := by
  refine ⟨?_, ?_, ?_⟩ <;> simp [PollInv, pollInit]

lemma pollStep_inv {s s2 : PollState} {e : PollEvent}
    (h : pollStep s e = some s2) (hinv : PollInv s) : PollInv s2 := by
  cases e with
  | start =>
    simp only [pollStep] at h
    split at h
    · exact Option.noConfusion h
    · next hst =>
      obtain rfl := Option.some.inj h
      have hsf : s.started = false := by
        cases hb : s.started
        · rfl
        · exact absurd hb hst
      obtain ⟨h0, ht⟩ := hinv.2.1 hsf
      refine ⟨?_, ?_, ?_⟩ <;> simp [h0, ht]
  | settleOk payload =>
    simp only [pollStep] at h
    split at h
    · exact Option.noConfusion h
    · next hne =>
      obtain rfl := Option.some.inj h
      have hpos : 1 ≤ s.outstanding := by
        simp only [decide_eq_true_eq] at hne
        omega
      have ht : s.timer = none := by
        rcases hti : s.timer with _ | t
        · rfl
        · have h1 := hinv.1
          rw [hti] at h1
          simp at h1
          omega
      have h1 : s.outstanding = 1 := by
        have h2 := hinv.1
        rw [ht] at h2
        simp at h2
        omega
      have hstarted : s.started = true := by
        cases hst : s.started
        · obtain ⟨h0, _⟩ := hinv.2.1 hst
          omega
        · rfl
      refine ⟨?_, ?_, ?_⟩
      · cases hcv : s.cancelled <;> simp [h1, ht, hcv]
      · intro hst
        rw [hstarted] at hst
        exact Bool.noConfusion hst
      · cases hcv : s.cancelled <;> simp [ht, hcv]
  | settleErr =>
    simp only [pollStep] at h
    split at h
    · exact Option.noConfusion h
    · next hne =>
      obtain rfl := Option.some.inj h
      have hpos : 1 ≤ s.outstanding := by
        simp only [decide_eq_true_eq] at hne
        omega
      have ht : s.timer = none := by
        rcases hti : s.timer with _ | t
        · rfl
        · have h1 := hinv.1
          rw [hti] at h1
          simp at h1
          omega
      have h1 : s.outstanding = 1 := by
        have h2 := hinv.1
        rw [ht] at h2
        simp at h2
        omega
      have hstarted : s.started = true := by
        cases hst : s.started
        · obtain ⟨h0, _⟩ := hinv.2.1 hst
          omega
        · rfl
      refine ⟨?_, ?_, ?_⟩
      · cases hcv : s.cancelled <;> simp [h1, ht, hcv]
      · intro hst
        rw [hstarted] at hst
        exact Bool.noConfusion hst
      · cases hcv : s.cancelled <;> simp [ht, hcv]
  | timerFire =>
    rcases hti : s.timer with _ | t
    · simp only [pollStep, hti] at h
      exact Option.noConfusion h
    · simp only [pollStep, hti] at h
      obtain rfl := Option.some.inj h
      have h0 : s.outstanding = 0 := by
        have h1 := hinv.1
        rw [hti] at h1
        simp at h1
        omega
      have hstarted : s.started = true := by
        cases hst : s.started
        · have h2 := (hinv.2.1 hst).2
          rw [h2] at hti
          exact Option.noConfusion hti
        · rfl
      refine ⟨?_, ?_, ?_⟩ <;> simp [h0, hstarted]
  | stop =>
    obtain rfl := Option.some.inj h
    exact hinv

lemma pollRunFrom_inv {s s2 : PollState} {es : List PollEvent}
    (hinv : PollInv s) (h : pollRunFrom s es = some s2) : PollInv s2 := by
  induction es generalizing s with
  | nil =>
    obtain rfl := Option.some.inj h
    exact hinv
  | cons e es ih =>
    simp only [pollRunFrom] at h
    rcases hstep : pollStep s e with _ | s3
    · rw [hstep] at h
      exact Option.noConfusion h
    · rw [hstep] at h
      exact ih (pollStep_inv hstep hinv) h

/-- C9: once the session is cancelled no state commit ever occurs —
every continuation of a cancelled state keeps the held view unchanged
and schedules no new timer; every reachable state has at most one
outstanding fetch; a failure while live silently reschedules at the
fixed interval without touching the view; and any scheduled timer uses
the fixed interval. -/
theorem poll_session_spec :
    (∀ (s s2 : PollState) (es : List PollEvent), s.cancelled = true →
      pollRunFrom s es = some s2 → s2.view = s.view) ∧
    (∀ (s s2 : PollState) (e : PollEvent), s.cancelled = true →
      pollStep s e = some s2 → s2.timer = s.timer ∨ s2.timer = none) ∧
    (∀ (es : List PollEvent) (s : PollState), pollRun es = some s →
      s.outstanding ≤ 1) ∧
    (∀ s s2 : PollState, s.cancelled = false →
      pollStep s PollEvent.settleErr = some s2 →
      s2.timer = some pollMs ∧ s2.view = s.view) ∧
    (∀ (es : List PollEvent) (s : PollState), pollRun es = some s →
      s.timer = none ∨ s.timer = some pollMs) := by
  refine ⟨?_, ?_, ?_, ?_, ?_⟩
  · intro s s2 es hc h
    exact pollRunFrom_cancelled hc h
  · intro s s2 e hc h
    cases e with
    | start =>
      simp only [pollStep] at h
      split at h
      · exact Option.noConfusion h
      · obtain rfl := Option.some.inj h
        exact Or.inl rfl
    | settleOk payload =>
      simp only [pollStep] at h
      split at h
      · exact Option.noConfusion h
      · obtain rfl := Option.some.inj h
        exact Or.inl (by simp [hc])
    | settleErr =>
      simp only [pollStep] at h
      split at h
      · exact Option.noConfusion h
      · obtain rfl := Option.some.inj h
        exact Or.inl (by simp [hc])
    | timerFire =>
      rcases hti : s.timer with _ | t
      · simp only [pollStep, hti] at h
        exact Option.noConfusion h
      · simp only [pollStep, hti] at h
        obtain rfl := Option.some.inj h
        exact Or.inr rfl
    | stop =>
      obtain rfl := Option.some.inj h
      exact Or.inl rfl
  · intro es s h
    have hinv := pollRunFrom_inv pollInit_inv h
    have h1 := hinv.1
    rcases hti : s.timer with _ | t <;> rw [hti] at h1 <;> simp at h1 <;> omega
  · intro s s2 hc h
    simp only [pollStep] at h
    split at h
    · exact Option.noConfusion h
    · obtain rfl := Option.some.inj h
      simp [hc]
  · intro es s h
    exact (pollRunFrom_inv pollInit_inv h).2.2

/-- Witness for C9 on a concrete session trace — start, one success,
timer fire, stop, then a stale response settling after cancellation. -/
theorem poll_session_spec_witness :
    (PollState.mk true 0 none (some 5) true).view =
      (PollState.mk true 1 none (some 5) true).view ∧
    (PollState.mk true 0 none (some 5) true).outstanding ≤ 1 ∧
    ((PollState.mk true 0 none (some 5) true).timer = none ∨
      (PollState.mk true 0 none (some 5) true).timer = some pollMs) ∧
    ((PollState.mk false 0 (some pollMs) (some 5) true).timer = some pollMs ∧
      (PollState.mk false 0 (some pollMs) (some 5) true).view =
        (PollState.mk false 1 none (some 5) true).view) :=
  ⟨poll_session_spec.1 (PollState.mk true 1 none (some 5) true)
      (PollState.mk true 0 none (some 5) true) [PollEvent.settleOk 9] rfl rfl,
   poll_session_spec.2.2.1
      [PollEvent.start, PollEvent.settleOk 5, PollEvent.timerFire,
        PollEvent.stop, PollEvent.settleOk 9]
      (PollState.mk true 0 none (some 5) true) rfl,
   poll_session_spec.2.2.2.2
      [PollEvent.start, PollEvent.settleOk 5, PollEvent.timerFire,
        PollEvent.stop, PollEvent.settleOk 9]
      (PollState.mk true 0 none (some 5) true) rfl,
   poll_session_spec.2.2.2.1 (PollState.mk false 1 none (some 5) true)
      (PollState.mk false 0 (some pollMs) (some 5) true) rfl rfl⟩

end TeamCoup
